import Mathlib

/-
Shallow embedding of src/amf_rotary_valve/device.py (class AMFDevice).
Each definition cites the Python source it translates.
-/

namespace AMFDevice

/-- Errors arising in device.py. The first two are the exception classes the
module defines (AMFDeviceConnectionError, AMFDeviceConnectionLostError); the
next three are the Python/asyncio exceptions the code raises or catches
(serial.SerialException, asyncio.TimeoutError, IndexError from `data[2]`,
ValueError from `int(...)` or unpacking an empty list). `malformedFrame`,
`alreadyClosing` and `alreadyClosed` are the spec's error kinds for
undecodable lines and for repeated close calls; no code in device.py ever
produces them, and they are declared here only so that statements can compare
the code's behaviour against them. -/
inductive PyError
  | connectionError
  | connectionLostError
  | serialException
  | timeoutError
  | indexError
  | valueError
  | malformedFrame
  | alreadyClosing
  | alreadyClosed
deriving DecidableEq

/-- Datatype from device.py line 12: `Datatype = type[bool] | type[int]`. -/
inductive Datatype
  | bool
  | int
deriving DecidableEq

/-- Result of `_parse` (device.py lines 171-180): a bool, an int, or the raw
payload (a byte string, modelled as a list of byte values). -/
inductive ParsedValue
  | bool (b : Bool)
  | int (n : Int)
  | str (bs : List Nat)
deriving DecidableEq

/-- Which pending future a received frame was delivered to by `_receive`
(device.py lines 182-191): the pending-motion future (`_busy_future`) or the
oldest pending-query future. Futures are identified by numeric ids. -/
inductive Routed
  | motion (fid : Nat)
  | query (fid : Nat)
deriving DecidableEq

/-- Mutable state of an AMFDevice instance (device.py lines 43-47):
`_busy`, `_busy_future`, `_query_futures`, `_closing`, `_closed_exc`
(None or the exception set on it). `next_future` is a modelling counter
handing out fresh future ids for `Future()` allocations. -/
structure AMFState where
  busy : Bool
  busy_future : Option Nat
  query_futures : List Nat
  closing : Bool
  closed_exc : Option PyError
  next_future : Nat
deriving DecidableEq

/-- State right after `__init__` (device.py lines 43-47). -/
def init_state : AMFState :=
  { busy := false, busy_future := none, query_futures := [], closing := false,
    closed_exc := none, next_future := 0 }

/-- A state whose `_closing` flag is set. -/
def closing_state : AMFState := { init_state with closing := true }

/-- A state with a pending motion (future id 7), two pending queries, and the
busy bit set by the previous frame. -/
def motion_state : AMFState :=
  { init_state with busy := true, busy_future := some 7, query_futures := [1, 2] }

/-- A state with two pending queries, no pending motion, and the busy bit set
by the previous frame. -/
def queries_state : AMFState :=
  { init_state with busy := true, query_futures := [1, 2] }

/-- Busy flag computed from the status byte, device.py line 184:
`self._busy = (data[2] & (1 << 5)) < 1`. -/
def frame_busy (b : Nat) : Bool := decide (b.land (1 <<< 5) < 1)

/-- Else-branch of `_receive` (device.py lines 190-191):
`query_future, *self._query_futures = self._query_futures` followed by
`query_future.set_result(data)`. Unpacking an empty list raises ValueError. -/
def deliver_query (s : AMFState) (new_busy : Bool) : Except PyError (AMFState × Routed) :=
  match s.query_futures with
  | [] => Except.error PyError.valueError
  | q :: rest =>
    Except.ok ({ s with busy := new_busy, query_futures := rest }, Routed.query q)

/-- `_receive` (device.py lines 182-191). `data[2]` raises IndexError on a
line shorter than 3 bytes. Otherwise the busy flag is recomputed from the
status byte; if a motion future exists and the busy bit transitions from set
(previous frame) to clear, the motion future receives the frame and the slot
is cleared, else the oldest query future receives it. -/
def receive (s : AMFState) (data : List Nat) : Except PyError (AMFState × Routed) :=
  match data[2]? with
  | none => Except.error PyError.indexError
  | some b =>
    let new_busy := frame_busy b
    match s.busy_future with
    | some m =>
      if s.busy && !new_busy then
        Except.ok ({ s with busy := new_busy, busy_future := none }, Routed.motion m)
      else deliver_query s new_busy
    | none => deliver_query s new_busy

/-- Terminator stripping in `_read_loop` (device.py line 93): the raw line is
sliced with `[0:-2]`, dropping the last two bytes. -/
def strip_line (line : List Nat) : List Nat := line.dropLast.dropLast

/-- Payload slice in `_parse` (device.py line 172): `data[3:-1]`, the bytes
from offset 3 up to but excluding the last byte of `data`. -/
def payload_bytes (data : List Nat) : List Nat := (data.drop 3).dropLast

/-- Byte value test for an ASCII decimal digit. -/
def is_digit (d : Nat) : Bool := 48 ≤ d && d ≤ 57

/-- Value of a list of ASCII digit bytes read in base 10. -/
def digits_val (ds : List Nat) : Nat := ds.foldl (fun a d => a * 10 + (d - 48)) 0

/-- Digits-only part of Python `int(...)`: a non-empty all-digit string parses
to its decimal value, anything else raises ValueError (modelled as `none`). -/
def parse_digits (ds : List Nat) : Option Nat :=
  if !ds.isEmpty && ds.all is_digit then some (digits_val ds) else none

/-- Python `int(response)` on the payload bytes (device.py line 178), covering
an optional leading sign followed by decimal digits; other inputs raise
ValueError (modelled as `none`). -/
def parse_int (bs : List Nat) : Option Int :=
  match bs with
  | 45 :: rest => (parse_digits rest).map (fun n => -(n : Int))
  | 43 :: rest => (parse_digits rest).map (fun n => (n : Int))
  | _ => (parse_digits bs).map (fun n => (n : Int))

/-- `_parse` (device.py lines 171-180): slice the payload with `[3:-1]`, then
convert according to the requested datatype: bool compares the payload to
"1" (byte 49), int parses it as a decimal integer, no datatype returns the
payload unchanged. -/
def parse (data : List Nat) (dtype : Option Datatype) : Except PyError ParsedValue :=
  let response := payload_bytes data
  match dtype with
  | some Datatype.bool => Except.ok (ParsedValue.bool (response == [49]))
  | some Datatype.int =>
    match parse_int response with
    | some n => Except.ok (ParsedValue.int n)
    | none => Except.error PyError.valueError
  | none => Except.ok (ParsedValue.str response)

end AMFDevice

namespace AMFDevice

/-- Command encoding in `_query` (device.py line 159): the wire frame is
`"/_" + command + "\r"`. -/
def encode (command : String) : String := "/_" ++ command ++ "\r"

/-- Timeout passed to `asyncio.wait_for` in `_query` (device.py line 160),
in seconds. -/
def wait_for_timeout : ℚ := 2

/-- Tail of `_main_func` after the initial wait completes (device.py lines
61-83): the pending motion future (if any) and every queued query future get
`AMFDeviceConnectionError` set on them (returned here as the list of failed
future ids; the code does not remove them from the slots), `_closing` is set,
and, if `_closed_exc` carries an exception, `_main_func` re-raises it as
`AMFDeviceConnectionLostError`. -/
def main_func_tail (s : AMFState) : AMFState × List Nat × Except PyError Unit :=
  let failed := (match s.busy_future with | some m => [m] | none => []) ++ s.query_futures
  let s1 := { s with closing := true }
  match s.closed_exc with
  | some _ => (s1, failed, Except.error PyError.connectionLostError)
  | none => (s1, failed, Except.ok ())

/-- Outer except-branch of `_query` (device.py lines 164-169): the caught
exception is set on `_closed_exc`, then `self.closed()` is awaited, which
propagates `_main_func`'s outcome; if that raises, its error is what the
caller sees, else the original exception is re-raised. -/
def fail_and_close (s : AMFState) (e : PyError) : AMFState × PyError :=
  let s1 := { s with closed_exc := some e }
  let t := main_func_tail s1
  (t.1,
    match t.2.2 with
    | Except.error e2 => e2
    | Except.ok _ => e)

/-- Outcome of awaiting the pending-query future in `_query`: the future was
fulfilled with a frame, `asyncio.wait_for` timed out, or the future was
failed with an exception by teardown. -/
inductive AwaitResult
  | frame (data : List Nat)
  | timedOut
  | failed (e : PyError)
deriving DecidableEq

/-- `_query` (device.py lines 147-169), given the outcome of awaiting the
response future. If `_closing` is set, `AMFDeviceConnectionError` is raised
before any write. Otherwise a fresh future is appended to `_query_futures`
and the encoded command is written (returned as the list of link writes).
On a frame, `_parse` runs; a parse failure removes the future and propagates.
On timeout, the future is removed, then `asyncio.TimeoutError` is routed
through `fail_and_close`. On a teardown exception, the future is removed and
the exception propagates (only SerialException and TimeoutError enter
`fail_and_close`). The bookkeeping that `_receive` performed when it
fulfilled the future (popping it from `_query_futures`) happens in `receive`
and is not repeated here: this function models only `_query`'s own effects. -/
def query (s : AMFState) (command : String) (dtype : Option Datatype)
    (res : AwaitResult) : AMFState × List String × Except PyError ParsedValue :=
  if s.closing then (s, [], Except.error PyError.connectionError)
  else
    let fid := s.next_future
    let s1 := { s with query_futures := s.query_futures ++ [fid], next_future := fid + 1 }
    let writes := [encode command]
    match res with
    | AwaitResult.frame d =>
      match parse d dtype with
      | Except.ok v => (s1, writes, Except.ok v)
      | Except.error e =>
        ({ s1 with query_futures := s1.query_futures.erase fid }, writes, Except.error e)
    | AwaitResult.timedOut =>
      let s2 := { s1 with query_futures := s1.query_futures.erase fid }
      let fc := fail_and_close s2 PyError.timeoutError
      (fc.1, writes, Except.error fc.2)
    | AwaitResult.failed e =>
      let s2 := { s1 with query_futures := s1.query_futures.erase fid }
      match e with
      | PyError.serialException =>
        let fc := fail_and_close s2 PyError.serialException
        (fc.1, writes, Except.error fc.2)
      | PyError.timeoutError =>
        let fc := fail_and_close s2 PyError.timeoutError
        (fc.1, writes, Except.error fc.2)
      | e2 => (s2, writes, Except.error e2)

/-- Entry check of `_run` (device.py lines 193-195): raises
`AMFDeviceConnectionError` when `_closing` is set. -/
def run_entry (s : AMFState) : Except PyError Unit :=
  if s.closing then Except.error PyError.connectionError else Except.ok ()

/-- `get_valve` (device.py lines 219-228): query `?6` with the int datatype,
then `return res if res != 0 else None`. The non-int arm is unreachable for
this datatype and mirrors no code path. -/
def get_valve (s : AMFState) (res : AwaitResult) :
    AMFState × List String × Except PyError (Option Int) :=
  let r := query s "?6" (some Datatype.int) res
  (r.1, r.2.1,
    match r.2.2 with
    | Except.ok (ParsedValue.int n) => Except.ok (if n ≠ 0 then some n else none)
    | Except.ok _ => Except.ok none
    | Except.error e => Except.error e)

/-- `close` (device.py lines 97-116). On the first call (`_closing` unset) it
sets `_closing`, waits for the pending futures, cancels and awaits the main
task, suppressing `AMFDeviceConnectionLostError` and `CancelledError`; on a
repeat call it skips the if-block and merely awaits the main task with the
same suppressions, returning normally either way. -/
def close (s : AMFState) : AMFState × Except PyError Unit :=
  if s.closing then (s, Except.ok ())
  else ({ s with closing := true }, Except.ok ())

/-- AMFDeviceInfo (device.py lines 21-26): the address of a discovered port. -/
structure AMFDeviceInfo where
  address : String
deriving DecidableEq

/-- `AMFDevice.list` (device.py lines 274-289), with the OS port list passed
in as the addresses `comports()` reports. The vendor/product-id comparison is
commented out in the source (line 287); the loop body only checks `if all:`
before yielding. -/
def list ( all : Bool) (ports : List String) : List AMFDeviceInfo :=
  ports.filterMap (fun p => if all then some { address := p } else none)

/-- Atomic steps a `_query` call contributes to an interleaving, indexed by a
call id: `append c` is the synchronous `self._query_futures.append(future)`
(device.py line 152) and `write c` is the serial write the call dispatches to
an executor thread (line 159). -/
inductive QEvent
  | append (c : Nat)
  | write (c : Nat)
deriving DecidableEq, BEq

/-- Order in which the pending-query queue was appended to along a trace:
the queue's FIFO order. -/
def queue_order (t : List QEvent) : List Nat :=
  t.filterMap (fun e => match e with | QEvent.append c => some c | QEvent.write _ => none)

/-- Order in which the commands reached the link along a trace. -/
def write_order (t : List QEvent) : List Nat :=
  t.filterMap (fun e => match e with | QEvent.write c => some c | QEvent.append _ => none)

/-- The two events of each of `n` concurrent `_query` calls. -/
def call_events (n : Nat) : List QEvent :=
  ((List.range n).map (fun c => [QEvent.append c, QEvent.write c])).flatten

/-- Per-call program order: the call's append precedes its write. -/
def program_order_ok (t : List QEvent) (c : Nat) : Bool :=
  t.indexOf (QEvent.append c) < t.indexOf (QEvent.write c)

/-- Interleavings of `n` concurrent `_query` calls that device.py permits:
each call appends before it writes (lines 152 and 159 run in program order),
but the coroutine suspends at `await loop.run_in_executor(...)` between the
two and the writes run in executor threads, with no lock anywhere in
`_query`, so no further ordering is imposed. -/
def valid_trace (n : Nat) (t : List QEvent) : Bool :=
  t.isPerm (call_events n) && (List.range n).all (fun c => program_order_ok t c)

/-- A trace of two `_query` calls in which both append before either write
completes, and the writes complete in reverse order. -/
def reordered_trace : List QEvent :=
  [QEvent.append 0, QEvent.append 1, QEvent.write 1, QEvent.write 0]

/-- Modelled from the spec: device.py contains no writer lock, so this is the
spec's "single writer lock" discipline (§4.3), under which each call's append
and write are indivisible, i.e. adjacent in the trace. -/
def locked_trace : List QEvent → Bool
  | [] => true
  | QEvent.append c :: QEvent.write c' :: rest => c == c' && locked_trace rest
  | _ :: _ => false

/-- C1: for every received frame, while a pending motion is outstanding and
the busy bit transitions from true (set by the previous frame) to false, the
frame resolves the pending motion and clears the motion slot; every other
frame is delivered to the oldest pending query in FIFO order, even when
queries are also outstanding. -/
theorem receive_busy_transition_routes_motion_else_fifo
    (s : AMFState) (data : List Nat) (b : Nat) (hb : data[2]? = some b) :
    (∀ m, s.busy_future = some m → s.busy = true → frame_busy b = false →
      receive s data =
        Except.ok ({ s with busy := false, busy_future := none }, Routed.motion m))
    ∧ (∀ q rest, s.query_futures = q :: rest →
      (s.busy_future = none ∨ s.busy = false ∨ frame_busy b = true) →
      receive s data =
        Except.ok ({ s with busy := frame_busy b, query_futures := rest },
          Routed.query q)) := by
  constructor
  · intro m hm h1 h2
    simp [receive, hb, hm, h1, h2]
  · intro q rest hq hcond
    rcases hcond with h | h | h
    · simp [receive, hb, h, deliver_query, hq]
    · cases hbf : s.busy_future with
      | none => simp [receive, hb, hbf, deliver_query, hq]
      | some m => simp [receive, hb, hbf, h, deliver_query, hq]
    · cases hbf : s.busy_future with
      | none => simp [receive, hb, hbf, deliver_query, hq]
      | some m => simp [receive, hb, hbf, h, deliver_query, hq]

/-- Witness for C1: with a pending motion (id 7), busy previously set and a
frame whose status byte 0x60 has bit 5 set (not busy), the motion future is
resolved and the slot cleared; with no pending motion the same frame goes to
the oldest pending query (id 1). -/
theorem receive_routing_witness :
    frame_busy 96 = false
    ∧ receive motion_state [47, 48, 96] =
      Except.ok ({ motion_state with busy := false, busy_future := none },
        Routed.motion 7)
    ∧ receive queries_state [47, 48, 96] =
      Except.ok ({ queries_state with busy := false, query_futures := [2] },
        Routed.query 1) :=
  ⟨by decide,
   (receive_busy_transition_routes_motion_else_fifo motion_state [47, 48, 96] 96
     rfl).1 7 rfl rfl (by decide),
   (receive_busy_transition_routes_motion_else_fifo queries_state [47, 48, 96] 96
     rfl).2 1 [2] rfl (Or.inl rfl)⟩

/-- C7 counterexample: for the stripped line 2f 30 60 41 42 43 (terminators
0d 0a already removed), `_parse` hands `[65, 66]` to payload conversion, not
the bytes from offset 3 to the end of the stripped line, which are
`[65, 66, 67]`: the last byte of the stripped line is excluded. -/
theorem payload_excludes_last_byte :
    payload_bytes (strip_line [47, 48, 96, 65, 66, 67, 13, 10]) = [65, 66]
    ∧ payload_bytes (strip_line [47, 48, 96, 65, 66, 67, 13, 10])
      ≠ (strip_line [47, 48, 96, 65, 66, 67, 13, 10]).drop 3 := by
  decide

/-- C7 amended: the payload handed to conversion consists of the bytes of the
stripped line from offset 3 up to but excluding its last byte, i.e. the first
`length - 4` bytes after offset 3. -/
theorem payload_bytes_take_characterization (data : List Nat) :
    payload_bytes data = (data.drop 3).take (data.length - 4) := by
  rw [payload_bytes, List.dropLast_eq_take, List.length_drop]
  congr 1

/-- C8 counterexample: the two-byte line 2f 30 makes `_receive` raise
IndexError at `data[2]`; decoding does not fail with the spec's
MalformedFrame kind, which no code in device.py ever produces. -/
theorem short_line_not_malformed_frame :
    receive init_state [47, 48] = Except.error PyError.indexError
    ∧ receive init_state [47, 48] ≠ Except.error PyError.malformedFrame := by
  constructor
  · rfl
  · intro h
    simp [receive] at h

/-- C8 amended: every received line shorter than 3 bytes makes `_receive`
raise IndexError when reading the status byte, crashing the read loop, rather
than failing with a dedicated malformed-frame error kind. -/
theorem short_line_raises_index_error (s : AMFState) (data : List Nat)
    (h : data.length < 3) :
    receive s data = Except.error PyError.indexError := by
  have h2 : data[2]? = none := List.getElem?_eq_none (by omega)
  simp [receive, h2]

/-- Witness for the C8 amended theorem at the one-byte line 2f. -/
theorem short_line_raises_index_error_witness :
    ([47] : List Nat).length < 3
    ∧ receive init_state [47] = Except.error PyError.indexError :=
  ⟨by decide, short_line_raises_index_error init_state [47] (by decide)⟩

/-- C10: with its default argument `all=False`, `AMFDevice.list` yields no
devices regardless of which serial ports the OS reports, because the
vendor/product-id filter is commented out and the loop body only yields when
`all` is true. -/
theorem list_default_yields_nothing (ports : List String) :
    list false ports = [] := by
  simp [list]

/-- C3 counterexample: the interleaving in which both `_query` calls append
their futures before either executor write completes, with the writes
finishing in reverse order, is permitted by the code (each call appends
before it writes; nothing else is enforced, as `_query` holds no lock across
its `await`), yet the queue's FIFO order `[0, 1]` differs from the order
`[1, 0]` in which the commands reached the link. -/
theorem no_lock_trace_reorders_writes :
    valid_trace 2 reordered_trace = true
    ∧ queue_order reordered_trace ≠ write_order reordered_trace := by
  decide

/-- C3 amended: the code does not make the append and the write indivisible
and holds no writer lock, so queue order can diverge from write order (see
the counterexample); under the spec's single-writer-lock discipline, in which
each call's append and write are adjacent, the queue's FIFO order always
equals the order the commands were written. -/
theorem locked_trace_preserves_fifo :
    ∀ t, locked_trace t = true → queue_order t = write_order t
  | [], _ => rfl
  | QEvent.append c :: QEvent.write c' :: rest, h => by
    simp only [locked_trace, Bool.and_eq_true, beq_iff_eq] at h
    obtain ⟨rfl, h2⟩ := h
    have ih := locked_trace_preserves_fifo rest h2
    simp only [queue_order, write_order, List.filterMap_cons] at ih ⊢
    simp [ih]
  | [QEvent.append c], h => by simp [locked_trace] at h
  | QEvent.append c :: QEvent.append c' :: rest, h => by simp [locked_trace] at h
  | QEvent.write c :: rest, h => by simp [locked_trace] at h

/-- Witness for the C3 amended theorem at the trace of one locked call. -/
theorem locked_trace_preserves_fifo_witness :
    locked_trace [QEvent.append 0, QEvent.write 0] = true
    ∧ queue_order [QEvent.append 0, QEvent.write 0] =
      write_order [QEvent.append 0, QEvent.write 0] :=
  ⟨by decide, locked_trace_preserves_fifo [QEvent.append 0, QEvent.write 0] (by decide)⟩

/-- C4 counterexample: starting from the freshly initialised state, a query
whose response future times out fails with the connection-lost error, not
with the timeout kind: device.py lines 164-169 record the TimeoutError on
`_closed_exc` and then `closed()` raises AMFDeviceConnectionLostError, making
the final re-raise unreachable (as the comment on line 168 notes). -/
theorem timeout_not_timeout_kind :
    (query init_state "?6" none AwaitResult.timedOut).2.2 =
      Except.error PyError.connectionLostError
    ∧ (query init_state "?6" none AwaitResult.timedOut).2.2 ≠
      Except.error PyError.timeoutError := by
  constructor
  · rfl
  · intro h
    simp [query, fail_and_close, main_func_tail, init_state] at h

/-- C4 amended: `_query` waits on its future with a fixed 2-second timeout;
when no frame arrives the call fails with the connection-lost error kind (the
timeout exception is recorded as the close cause and surfaced as a terminal
link failure), and the session is marked closing, so every subsequent query
or run call fails immediately with the session-closed connection error and
writes nothing. -/
theorem timeout_marks_failed_and_raises_lost (s : AMFState) (command : String)
    (dtype : Option Datatype) (h : s.closing = false) :
    (query s command dtype AwaitResult.timedOut).2.2 =
      Except.error PyError.connectionLostError
    ∧ (query s command dtype AwaitResult.timedOut).1.closing = true
    ∧ (∀ c2 d2 r2, query (query s command dtype AwaitResult.timedOut).1 c2 d2 r2 =
        ((query s command dtype AwaitResult.timedOut).1, [],
          Except.error PyError.connectionError))
    ∧ run_entry (query s command dtype AwaitResult.timedOut).1 =
        Except.error PyError.connectionError
    ∧ wait_for_timeout = 2 := by
  refine ⟨?_, ?_, ?_, ?_, rfl⟩
  · simp [query, h, fail_and_close, main_func_tail]
  · simp [query, h, fail_and_close, main_func_tail]
  · intro c2 d2 r2
    simp [query, h, fail_and_close, main_func_tail]
  · simp [query, run_entry, h, fail_and_close, main_func_tail]

/-- Witness for the C4 amended theorem at the freshly initialised state. -/
theorem timeout_marks_failed_witness :
    init_state.closing = false
    ∧ (query init_state "?6" none AwaitResult.timedOut).2.2 =
      Except.error PyError.connectionLostError
    ∧ (query init_state "?6" none AwaitResult.timedOut).1.closing = true :=
  ⟨rfl, (timeout_marks_failed_and_raises_lost init_state "?6" none rfl).1,
   (timeout_marks_failed_and_raises_lost init_state "?6" none rfl).2.1⟩

/-- C5 counterexample: calling `close` with `_closing` already set skips the
teardown block and returns normally after awaiting the main task; it does not
fail with the spec's already-closing or already-closed kinds, which no code
in device.py produces. -/
theorem second_close_returns_ok :
    close closing_state = (closing_state, Except.ok ())
    ∧ (close closing_state).2 ≠ Except.error PyError.alreadyClosing
    ∧ (close closing_state).2 ≠ Except.error PyError.alreadyClosed := by
  refine ⟨rfl, ?_, ?_⟩ <;> · intro h; simp [close, closing_state, init_state] at h

/-- C5 amended: a second `close` call, made while the session is already
closing or closed, is a no-op that completes without error and leaves the
state unchanged. -/
theorem close_when_closing_noop (s : AMFState) (h : s.closing = true) :
    close s = (s, Except.ok ()) := by
  simp [close, h]

/-- Witness for the C5 amended theorem at a state whose closing flag is set. -/
theorem close_when_closing_noop_witness :
    closing_state.closing = true
    ∧ close closing_state = (closing_state, Except.ok ()) :=
  ⟨rfl, close_when_closing_noop closing_state rfl⟩

/-- C6: every query or run call issued while `_closing` is set (the closing,
closed and failed states all set it) fails immediately with
AMFDeviceConnectionError, the session-closed error, before anything is
written to the link. -/
theorem ops_fail_when_closing (s : AMFState) (command : String)
    (dtype : Option Datatype) (res : AwaitResult) (h : s.closing = true) :
    query s command dtype res = (s, [], Except.error PyError.connectionError)
    ∧ run_entry s = Except.error PyError.connectionError := by
  constructor <;> simp [query, run_entry, h]

/-- Witness for C6 at a state whose closing flag is set. -/
theorem ops_fail_when_closing_witness :
    closing_state.closing = true
    ∧ query closing_state "?6" none AwaitResult.timedOut =
      (closing_state, [], Except.error PyError.connectionError)
    ∧ run_entry closing_state = Except.error PyError.connectionError :=
  ⟨rfl, (ops_fail_when_closing closing_state "?6" none AwaitResult.timedOut rfl).1,
   (ops_fail_when_closing closing_state "?6" none AwaitResult.timedOut rfl).2⟩

/-- C9: `get_valve` returns the absent value exactly when the integer parsed
from the `?6` response payload equals 0, and returns any other parsed integer
unchanged. -/
theorem get_valve_zero_iff_none (s : AMFState) (d : List Nat) (n : Int)
    (hc : s.closing = false)
    (hp : parse d (some Datatype.int) = Except.ok (ParsedValue.int n)) :
    ((get_valve s (AwaitResult.frame d)).2.2 = Except.ok none ↔ n = 0)
    ∧ (n ≠ 0 → (get_valve s (AwaitResult.frame d)).2.2 = Except.ok (some n)) := by
  have hv : (get_valve s (AwaitResult.frame d)).2.2 =
      Except.ok (if n ≠ 0 then some n else none) := by
    simp [get_valve, query, hc, hp]
  rw [hv]
  by_cases hn : n = 0 <;> simp [hn]

/-- Witness for C9: a frame whose payload is "5" yields valve position 5, and
a frame whose payload is "0" yields the absent value. -/
theorem get_valve_zero_iff_none_witness :
    parse [47, 48, 96, 53, 120] (some Datatype.int) = Except.ok (ParsedValue.int 5)
    ∧ (get_valve init_state (AwaitResult.frame [47, 48, 96, 53, 120])).2.2 =
      Except.ok (some 5)
    ∧ (get_valve init_state (AwaitResult.frame [47, 48, 96, 48, 120])).2.2 =
      Except.ok none :=
  ⟨rfl,
   (get_valve_zero_iff_none init_state [47, 48, 96, 53, 120] 5 rfl rfl).2 (by decide),
   (get_valve_zero_iff_none init_state [47, 48, 96, 48, 120] 0 rfl rfl).1.mpr rfl⟩

end AMFDevice
